import Mathlib

/-!
Verification development for the vlc-rpc repository (status-synchronization
and metadata-enrichment pipeline).

Python strings are modelled as lists of characters (or Lean String where
only whole-string operations occur), Python dicts as association lists in
insertion order, machine integers as Int, and fallible code as Option or
Except values.  Network and clock effects are passed in explicitly: the
wall-clock time is an Int parameter and every network lookup is a function
parameter, so that each modelled operation is a pure function of its inputs.
-/

set_option maxRecDepth 20000

namespace VlcRpc

/-! ### Character helpers (Python str semantics, ASCII approximation)

Python whitespace for the regex class backslash-s and for str.strip; the
word-character test approximates the Python regex class backslash-w on
ASCII input (alphanumerics plus underscore). -/

def pyWhitespace : List Char := [' ', '\t', '\n', '\x0b', '\x0c', '\r']

def isPySpace (c : Char) : Bool := pyWhitespace.contains c

def isDigitCh (c : Char) : Bool := decide ('0' ≤ c) && decide (c ≤ '9')

def isWordCh (c : Char) : Bool := c.isAlphanum || c == '_'

def isAsciiAlnum (c : Char) : Bool :=
  (decide ('A' ≤ c) && decide (c ≤ 'Z')) ||
  (decide ('a' ≤ c) && decide (c ≤ 'z')) ||
  (decide ('0' ≤ c) && decide (c ≤ '9'))

/-- Model of Python str.strip with no argument: drop whitespace at both ends. -/
def pyStrip (s : List Char) : List Char :=
  ((s.dropWhile isPySpace).reverse.dropWhile isPySpace).reverse

/-- Does the second list start with the first one? -/
def startsWithL : List Char → List Char → Bool
  | [], _ => true
  | _ :: _, [] => false
  | a :: as, b :: bs => a == b && startsWithL as bs

/-- Model of Python s.split(sep)[0] for a nonempty separator: the prefix of
the string before the first occurrence of the separator (the whole string
when the separator does not occur). -/
def splitHead (sep : List Char) : List Char → List Char
  | [] => []
  | c :: s => if startsWithL sep (c :: s) then [] else c :: splitHead sep s

/-- Model of Python int applied to a string of decimal digits (as produced
by a digit-only regex capture). -/
def digitsToNat (cs : List Char) : Nat :=
  cs.foldl (fun n c => n * 10 + (c.toNat - Char.toNat '0')) 0

/-! ### A small backtracking regex engine

Shallow embedding of the fragment of Python re used by the repository.
Matching is anchored at the start of the input; reSearch tries successive
start positions left to right, exactly as re.search does.  Alternation
prefers the left branch, starLazy prefers the shortest expansion, and
starGreedy / rep prefer the longest, matching the backtracking order of
the CPython regex engine on these patterns.  anyChr is the dot: any
character except the newline (no DOTALL flag is used in the sources).
Case-insensitive pieces (the IGNORECASE patterns) are written with chrCI,
whose argument is stored in lowercase.  The fuel parameter bounds the
recursion depth; reFuel is far above the depth any of the embedded
patterns can reach on an input of the given length. -/

inductive RE where
  | eps
  | chr (c : Char)
  | chrCI (c : Char)
  | anyChr
  | cls (cs : List Char)
  | clsPred (p : Char → Bool)
  | clsD
  | seq (a b : RE)
  | alt (a b : RE)
  | starLazy (r : RE)
  | starGreedy (r : RE)
  | rep (r : RE) (lo hi : Nat)
  | group (i : Nat) (r : RE)
  | endAnchor

abbrev Caps := List (Nat × List Char)

def reMatch (fuel : Nat) (re : RE) (s : List Char) (caps : Caps)
    (k : List Char → Caps → Option Caps) : Option Caps :=
  match fuel with
  | 0 => none
  | fuel + 1 =>
    match re with
    | .eps => k s caps
    | .chr c =>
      match s with
      | [] => none
      | d :: s => if d == c then k s caps else none
    | .chrCI c =>
      match s with
      | [] => none
      | d :: s => if d.toLower == c then k s caps else none
    | .anyChr =>
      match s with
      | [] => none
      | d :: s => if d == '\n' then none else k s caps
    | .cls cs =>
      match s with
      | [] => none
      | d :: s => if cs.contains d then k s caps else none
    | .clsPred p =>
      match s with
      | [] => none
      | d :: s => if p d then k s caps else none
    | .clsD =>
      match s with
      | [] => none
      | d :: s => if isDigitCh d then k s caps else none
    | .seq a b =>
      reMatch fuel a s caps (fun s1 caps1 => reMatch fuel b s1 caps1 k)
    | .alt a b =>
      match reMatch fuel a s caps k with
      | some r => some r
      | none => reMatch fuel b s caps k
    | .starLazy r =>
      match k s caps with
      | some res => some res
      | none =>
        reMatch fuel r s caps (fun s1 caps1 =>
          if s1.length < s.length then reMatch fuel (.starLazy r) s1 caps1 k else none)
    | .starGreedy r =>
      match reMatch fuel r s caps (fun s1 caps1 =>
          if s1.length < s.length then reMatch fuel (.starGreedy r) s1 caps1 k else none) with
      | some res => some res
      | none => k s caps
    | .rep r lo hi =>
      match lo with
      | lo + 1 =>
        reMatch fuel r s caps (fun s1 caps1 => reMatch fuel (.rep r lo (hi - 1)) s1 caps1 k)
      | 0 =>
        match hi with
        | 0 => k s caps
        | hi + 1 =>
          match reMatch fuel r s caps (fun s1 caps1 =>
              if s1.length < s.length then reMatch fuel (.rep r 0 hi) s1 caps1 k else none) with
          | some res => some res
          | none => k s caps
    | .group i r =>
      reMatch fuel r s caps (fun s1 caps1 =>
        k s1 ((i, s.take (s.length - s1.length)) :: caps1))
    | .endAnchor =>
      match s with
      | [] => k s caps
      | _ :: _ => none

def reFuel (s : List Char) : Nat := 1000 * (s.length + 10)

/-- Anchored match attempt at the current position: on success returns the
captures, with group 0 bound to the whole matched text. -/
def reMatchHere (re : RE) (s : List Char) : Option Caps :=
  reMatch (reFuel s) (.group 0 re) s [] (fun _ caps => some caps)

/-- Model of re.search: try an anchored match at each start position from
the left; the result is the 0-based start position together with the
captures of the first (leftmost) match. -/
def reSearchAux (re : RE) : List Char → Nat → Option (Nat × Caps)
  | s, pos =>
    match reMatchHere re s with
    | some caps => some (pos, caps)
    | none =>
      match s with
      | [] => none
      | _ :: s => reSearchAux re s (pos + 1)

def reSearch (re : RE) (s : List Char) : Option (Nat × Caps) :=
  reSearchAux re s 0

/-- Text of a capture group (empty when the group is unbound). -/
def capStr (caps : Caps) (i : Nat) : List Char :=
  ((caps.find? (fun p => p.1 == i)).map (fun p => p.2)).getD []

/-- Model of re.sub with a constant replacement: scan left to right, replace
each non-overlapping match and continue after it.  The patterns used in the
sources can never match the empty string; a hypothetical empty match is
skipped over (one character is copied) so the scan always advances. -/
def pySubAux (re : RE) (repl : List Char) : Nat → List Char → List Char
  | 0, s => s
  | fuel + 1, s =>
    match reMatchHere re s with
    | some caps =>
      let m := capStr caps 0
      match m with
      | [] =>
        match s with
        | [] => []
        | c :: s => c :: pySubAux re repl fuel s
      | _ :: _ => repl ++ pySubAux re repl fuel (s.drop m.length)
    | none =>
      match s with
      | [] => []
      | c :: s => c :: pySubAux re repl fuel s

def pySub (re : RE) (repl : List Char) (s : List Char) : List Char :=
  pySubAux re repl (s.length + 1) s

/-! ### Regex combinator notation helpers -/

def reSeqAll (rs : List RE) : RE := rs.foldr RE.seq RE.eps

def reAltAll (rs : List RE) : RE :=
  match rs with
  | [] => RE.eps
  | [r] => r
  | r :: rs => RE.alt r (reAltAll rs)

def reStr (cs : List Char) : RE := reSeqAll (cs.map RE.chr)

def reStrCI (cs : List Char) : RE := reSeqAll (cs.map (fun c => RE.chrCI c.toLower))

def rePlusGreedy (r : RE) : RE := .seq r (.starGreedy r)

/-! ### Python dict model

Association lists in insertion order.  pyGet is dict.get (first binding of
the key); pySet is item assignment: it replaces the value in place when the
key exists and appends a new binding otherwise, as CPython dicts do. -/

def pyGet {α : Type} (d : List (String × α)) (k : String) : Option α :=
  (d.find? (fun p => p.1 == k)).map (fun p => p.2)

def pySet {α : Type} (d : List (String × α)) (k : String) (v : α) : List (String × α) :=
  if (d.find? (fun p => p.1 == k)).isSome then
    d.map (fun p => if p.1 == k then (k, v) else p)
  else
    d ++ [(k, v)]

/-! ### src/video.py : VideoDetector

The title-classification pipeline of VideoDetector.  The regex patterns are
transcribed literally from _clean_title and _detect_content_type.  Classes
written below: sepCls is the class dot-space-underscore-hyphen (with
backslash-s expanded to Python whitespace), movieSepCls and movieCloseCls
are the separator classes around the year token of the movie pattern, and
epSepCls is the delimiter class of the anime episode heuristic. -/

def sepCls : RE := .cls ('.' :: '_' :: '-' :: pyWhitespace)

def movieSepCls : RE := .cls ('.' :: '[' :: '(' :: '_' :: '-' :: pyWhitespace)

def movieCloseCls : RE := .cls (']' :: ')' :: '.' :: '_' :: '-' :: pyWhitespace)

def epSepCls : RE := .cls ('-' :: '.' :: '_' :: pyWhitespace)

/-- Pattern (.*?)[separators]*S(digits 1-2)[separators]*E(digits 1-2), IGNORECASE. -/
def tvPattern1 : RE :=
  reSeqAll [.group 1 (.starLazy .anyChr), .starGreedy sepCls, .chrCI 's',
    .group 2 (.rep .clsD 1 2), .starGreedy sepCls, .chrCI 'e', .group 3 (.rep .clsD 1 2)]

/-- Pattern (.*?)[separators]*(digits 1-2)x(digits 1-2), IGNORECASE. -/
def tvPattern2 : RE :=
  reSeqAll [.group 1 (.starLazy .anyChr), .starGreedy sepCls,
    .group 2 (.rep .clsD 1 2), .chrCI 'x', .group 3 (.rep .clsD 1 2)]

/-- Pattern (.*?)[separators]*Season[separators]*(digits)[separators]*Episode[separators]*(digits), IGNORECASE. -/
def tvPattern3 : RE :=
  reSeqAll [.group 1 (.starLazy .anyChr), .starGreedy sepCls, reStrCI "Season".data,
    .starGreedy sepCls, .group 2 (.rep .clsD 1 2), .starGreedy sepCls,
    reStrCI "Episode".data, .starGreedy sepCls, .group 3 (.rep .clsD 1 2)]

/-- The year token 19xx or 20xx of the movie pattern. -/
def yearRE : RE :=
  .alt (reSeqAll [.chr '1', .chr '9', .clsD, .clsD])
       (reSeqAll [.chr '2', .chr '0', .clsD, .clsD])

/-- Pattern (.+?)[open separators]+(year)[close separator], case sensitive. -/
def moviePattern : RE :=
  reSeqAll [.group 1 (.seq .anyChr (.starLazy .anyChr)), rePlusGreedy movieSepCls,
    .group 2 yearRE, movieCloseCls]

/-- Pattern [delimiter](digits 1-3)[delimiter] of the anime episode heuristic. -/
def animeEpPattern : RE :=
  reSeqAll [epSepCls, .group 1 (.rep .clsD 1 3), epSepCls]

/-- Pattern dot-(sub or dub)-dot, IGNORECASE. -/
def subDubPattern : RE :=
  reSeqAll [.chr '.', .alt (reStrCI "sub".data) (reStrCI "dub".data), .chr '.']

/-- Container-extension pattern of _clean_title (anchored at the end,
IGNORECASE). -/
def extensionPattern : RE :=
  reSeqAll [.chr '.',
    .group 1 (reAltAll ((["mkv", "mp4", "avi", "mov", "wmv", "flv", "webm"].map
      (fun w => reStrCI w.data)))),
    .endAnchor]

/-- Trailing release-group or quality tag pattern of _clean_title (anchored
at the end, case sensitive). -/
def tagPattern : RE :=
  reSeqAll [.group 1 (reAltAll
    [.seq (.chr '-') (rePlusGreedy (.clsPred isAsciiAlnum)),
     .seq (.rep .clsD 3 4) (.chr 'p'),
     reStr "x264".data, reStr "x265".data, reStr "HEVC".data,
     reStr "WEB-DL".data, reStr "BluRay".data, reStr "WEBRip".data]),
    .endAnchor]

/-- The class dot-underscore-hyphen replaced by spaces when normalizing
captured names. -/
def nameSepCls : RE := .cls ['.', '_', '-']

/-- Pattern bracket-group or paren-group (lazy) or separator char, used to
clean anime names. -/
def animeCleanPattern : RE :=
  reAltAll [reSeqAll [.chr '[', .starLazy .anyChr, .chr ']'],
    reSeqAll [.chr '(', .starLazy .anyChr, .chr ')'],
    nameSepCls]

/-- Pattern used to clean the generic video title (also strips literal
extension substrings). -/
def videoCleanPattern : RE :=
  reAltAll [reSeqAll [.chr '[', .starLazy .anyChr, .chr ']'],
    reSeqAll [.chr '(', .starLazy .anyChr, .chr ')'],
    reStr ".mkv".data, reStr ".mp4".data, reStr ".avi".data,
    nameSepCls]

/-- Model of VideoDetector._clean_title: strip a known container extension,
then one trailing release-group or quality tag. -/
def cleanTitle (title : List Char) : List Char :=
  pySub tagPattern [] (pySub extensionPattern [] title)

/-- Values of the content_metadata mapping (string or int, as in the spec
data model). -/
inductive MetaVal where
  | s (v : String)
  | i (n : Int)
deriving DecidableEq, Repr

abbrev Metadata := List (String × MetaVal)

def firstSearch (res : List RE) (s : List Char) : Option Caps :=
  match res with
  | [] => none
  | r :: rest =>
    match reSearch r s with
    | some pc => some pc.2
    | none => firstSearch rest s

/-- Model of VideoDetector._detect_content_type: returns the content type
string together with the metadata mapping, testing the TV patterns, then
the movie pattern, then the anime heuristic, and finally the generic
fallback, first match winning. -/
def detectContentType (title : String) : String × Metadata :=
  let ct := cleanTitle title.data
  let md : Metadata :=
    [("original_title", .s title), ("clean_title", .s (String.mk ct))]
  match firstSearch [tvPattern1, tvPattern2, tvPattern3] ct with
  | some caps =>
    let showName := pyStrip (pySub nameSepCls [' '] (capStr caps 1))
    ("tv_show", md ++ [("show_name", .s (String.mk showName)),
      ("season", .i (digitsToNat (capStr caps 2))),
      ("episode", .i (digitsToNat (capStr caps 3)))])
  | none =>
    match reSearch moviePattern ct with
    | some pc =>
      let movieName := pyStrip (pySub nameSepCls [' '] (capStr pc.2 1))
      ("movie", md ++ [("movie_name", .s (String.mk movieName)),
        ("year", .s (String.mk (capStr pc.2 2)))])
    | none =>
      if (ct.contains '[' && ct.contains ']') || (reSearch subDubPattern ct).isSome then
        match reSearch animeEpPattern ct with
        | some pc =>
          let namePart := splitHead (capStr pc.2 0) ct
          let animeName := pyStrip (pySub animeCleanPattern [' '] namePart)
          ("anime", md ++ [("episode", .i (digitsToNat (capStr pc.2 1))),
            ("anime_name", .s (String.mk animeName))])
        | none =>
          let animeName := pyStrip (pySub animeCleanPattern [' '] ct)
          ("anime", md ++ [("anime_name", .s (String.mk animeName))])
      else
        let genericName := pyStrip (pySub videoCleanPattern [' '] ct)
        ("video", md ++ [("title", .s (String.mk genericName))])

/-! ### src/video.py : VideoDetector.analyze

The media_info argument is a Python dict; its values are modelled by PyVal:
null, booleans, ints, plain strings, the media sub-dict (a string-valued
mapping), and the content_metadata mapping.  Truthiness follows Python.
The network lookup of _fetch_content_image is wrapped in a try/except in
the source and can only return a URL or None; it is passed in as the
fetchImage parameter, applied to the search term _fetch_content_image
builds.  Calling .get on a truthy non-mapping media value raises an
AttributeError in Python; the model returns Except.error there. -/

inductive PyVal where
  | null
  | bool (b : Bool)
  | int (n : Int)
  | str (s : String)
  | strDict (d : List (String × String))
  | metaDict (d : Metadata)
deriving DecidableEq, Repr

abbrev PyDict := List (String × PyVal)

def PyVal.truthy : PyVal → Bool
  | .null => false
  | .bool b => b
  | .int n => n != 0
  | .str s => s != ""
  | .strDict d => !d.isEmpty
  | .metaDict d => !d.isEmpty

def truthyAt (d : PyDict) (k : String) : Bool :=
  ((pyGet d k).map PyVal.truthy).getD false

/-- Truthiness of metadata.get(key) inside _fetch_content_image. -/
def MetaVal.truthy : MetaVal → Bool
  | .s v => v != ""
  | .i n => n != 0

def metaStr (md : Metadata) (k : String) : String :=
  match pyGet md k with
  | some (.s v) => v
  | _ => ""

def metaTruthy (md : Metadata) (k : String) : Bool :=
  ((pyGet md k).map MetaVal.truthy).getD false

/-- Model of VideoDetector._fetch_content_image: build the search term from
the detected content type and metadata, then perform the (abstracted)
image search. -/
def fetchContentImage (fetchImage : String → Option String) (title : String)
    (contentType : String) (md : Metadata) : Option String :=
  let term :=
    if contentType == "tv_show" && metaTruthy md "show_name" then
      metaStr md "show_name" ++ " tv show poster"
    else if contentType == "movie" && metaTruthy md "movie_name" then
      (if metaTruthy md "year" then
        metaStr md "movie_name" ++ " " ++ metaStr md "year" ++ " movie poster"
      else
        metaStr md "movie_name" ++ " movie poster")
    else if contentType == "anime" && metaTruthy md "anime_name" then
      metaStr md "anime_name" ++ " anime cover"
    else
      title ++ " cover"
  fetchImage term

/-- Model of VideoDetector.analyze.  A falsy input is returned as given; a
falsy media entry is replaced by an empty mapping; then, when the title is
absent or empty, the (possibly extended) dict is returned without
classification; otherwise the classification fields, and the image URL
when one is found, are added. -/
def analyze (fetchImage : String → Option String) (mediaInfo : PyDict) :
    Except String PyDict :=
  if mediaInfo.isEmpty then .ok mediaInfo
  else
    let enhanced :=
      if !truthyAt mediaInfo "media" then pySet mediaInfo "media" (.strDict [])
      else mediaInfo
    match (pyGet enhanced "media").getD (.strDict []) with
    | .strDict m =>
      let title := (pyGet m "title").getD ""
      if title == "" then .ok enhanced
      else
        let tm := detectContentType title
        let enhanced := pySet enhanced "content_type" (.str tm.1)
        let enhanced := pySet enhanced "content_metadata" (.metaDict tm.2)
        match fetchContentImage fetchImage title tm.1 tm.2 with
        | some u => .ok (pySet enhanced "content_image_url" (.str u))
        | none => .ok enhanced
    | _ => .error "AttributeError"

/-! ### src/media_states.py : MediaState.format_text

Python strings are sequences of code points; length and slicing are by code
point, so the text is modelled as a list of characters. -/

def formatText (maxLength : Nat) (text : List Char) : List Char :=
  if text.length > maxLength then text.take (maxLength - 3) ++ ['.', '.', '.']
  else text

/-! ### src/discord_handler.py : VLCDiscordRP.update_presence

The file-variant snapshot shape: active, status, media (title, artist,
album), playback (position, duration, remaining).  Absent keys are Option
none; .get with a default is getD.  Wall-clock time is the now parameter. -/

structure FMedia where
  title : Option String
  artist : Option String
  album : Option String
deriving DecidableEq, Repr

structure FPlayback where
  position : Option Int
  duration : Option Int
  remaining : Option Int
deriving DecidableEq, Repr

structure FileStatus where
  active : Bool
  status : Option String
  media : FMedia
  playback : FPlayback
deriving DecidableEq, Repr

/-- Truthiness of an optional string value fetched with dict.get (absent or
empty is falsy). -/
def truthyStr (o : Option String) : Bool := (o.getD "") != ""

/-- Model of the extrapolation step of VLCDiscordRP.update_presence (the
branch taken when read_status yields nothing but the last accepted snapshot
was active): for a playing snapshot whose playback has a position, advance
the position by the elapsed wall-clock seconds, clamp it to the duration,
and store remaining = max 0 (duration - position).  In every other case the
handler leaves status unset and returns early, modelled as none. -/
def synthesizeStatus (last : FileStatus) (elapsed : Int) : Option FileStatus :=
  if last.active then
    if last.status == some "playing" then
      match last.playback.position with
      | none => none
      | some p =>
        let dur := last.playback.duration.getD 0
        let sim := p + elapsed
        let sim := if sim > dur then dur else sim
        some { last with playback :=
          { last.playback with
              position := some sim,
              remaining := some (max 0 (dur - sim)) } }
    else none
  else none

inductive ActivityType where
  | listening
  | watching
deriving DecidableEq, Repr

structure Payload where
  details : String
  state : String
  largeImage : String
  largeText : String
  smallImage : Option String
  smallText : String
  start : Option Int
  stop : Option Int
  activityType : ActivityType
deriving DecidableEq, Repr

/-- Model of the presence-payload construction of
VLCDiscordRP.update_presence (lines after the change bookkeeping): none is
the clear path taken when the snapshot is inactive or idle; otherwise the
payload handed to rpc.update.  The album separator string below reproduces
the source literal byte for byte: the file contains the three characters
U+00E2 U+20AC U+00A2 (a mojibake rendering of the bullet), not the bullet
U+2022. -/
def buildPresencePayload (status : FileStatus) (now : Int) : Option Payload :=
  if !status.active || status.status == some "idle" then none
  else
    let media := status.media
    let playback := status.playback
    let currentStatus := status.status.getD "idle"
    let details0 := media.title.getD "Unknown"
    let details :=
      if details0.length > 128 then details0.take 125 ++ "..." else details0
    let isLikelyAudio := truthyStr media.artist || truthyStr media.album
    let activityType :=
      if isLikelyAudio then ActivityType.listening else ActivityType.watching
    let state0 :=
      if truthyStr media.artist then
        "by " ++ media.artist.getD "" ++
          (if truthyStr media.album then
            " \u00E2\u20AC\u00A2 " ++ media.album.getD ""
          else "")
      else if truthyStr media.album then
        "from " ++ media.album.getD ""
      else
        -- both branches of the source if/else produce the same string here
        if currentStatus == "playing" then "Now playing" else "Paused"
    let state := if state0.length > 128 then state0.take 125 ++ "..." else state0
    let startStop : Option Int × Option Int :=
      if playback.position.isSome && playback.duration.getD 0 > 0 then
        let position := playback.position.getD 0
        let duration := playback.duration.getD 0
        if currentStatus == "playing" then
          (some (now - position),
           if 0 < duration && duration < 86400 then
             some (now - position + duration)
           else none)
        else (none, none)
      else (none, none)
    some {
      details := details
      state := state
      largeImage := "logo"
      largeText := "VLC Media Player"
      smallImage := if currentStatus == "paused" then some "paused" else none
      smallText := if currentStatus == "paused" then "Paused" else "Playing"
      start := if currentStatus == "playing" then startStop.1 else none
      stop := if currentStatus == "playing" then startStop.2 else none
      activityType := activityType }

/-! ### src/status_reader.py : StatusReader

The raw VLC HTTP status JSON object is modelled by VlcRaw: the top-level
state / time / length / position values (absent keys are none; the JSON
numbers are modelled as integers), the meta entry of information.category
(none when absent or empty), and the remaining category entries in order,
each with its Type and Video_resolution values.  parsePyInt models int()
applied to a string (sign and digits, surrounding whitespace allowed),
returning none where Python raises ValueError. -/

structure MetaDict where
  title : Option String
  filename : Option String
  artist : Option String
  album : Option String
  artworkUrl : Option String
deriving DecidableEq, Repr

structure StreamDict where
  typeName : Option String
  videoResolution : Option String
deriving DecidableEq, Repr

structure VlcRaw where
  state : Option String
  time : Option Int
  length : Option Int
  position : Option Int
  meta : Option MetaDict
  streams : List (String × StreamDict)
deriving DecidableEq, Repr

structure OutPlayback where
  position : Int
  time : Int
  duration : Int
deriving DecidableEq, Repr

structure OutMedia where
  title : Option String
  artist : Option String
  album : Option String
  artworkUrl : Option String
deriving DecidableEq, Repr

structure VideoInfo where
  width : Int
  height : Int
deriving DecidableEq, Repr

structure Snapshot where
  active : Bool
  status : String
  timestamp : Int
  playback : OutPlayback
  mediaType : String
  media : OutMedia
  videoInfo : Option VideoInfo
deriving DecidableEq, Repr

def parsePyIntDigits : List Char → Option Nat
  | [] => none
  | cs => if cs.all isDigitCh then some (digitsToNat cs) else none

/-- Model of Python int applied to a string. -/
def parsePyInt (s : String) : Option Int :=
  let t := pyStrip s.data
  match t with
  | '-' :: rest => (parsePyIntDigits rest).map (fun n => -(n : Int))
  | '+' :: rest => (parsePyIntDigits rest).map (fun n => (n : Int))
  | _ => (parsePyIntDigits t).map (fun n => (n : Int))

/-- The width (or height) component computed from a Video_resolution string:
int(resolution.split("x")[0]) when an x occurs, else 0; none models the
ValueError escaping from int() (caught by the callers generic handler). -/
def resolutionComponent (s : String) (second : Bool) : Option Int :=
  if s.data.contains 'x' then
    let part :=
      if second then splitHead ['x'] ((s.data.drop ((splitHead ['x'] s.data).length + 1)))
      else splitHead ['x'] s.data
    parsePyInt (String.mk part)
  else some 0

/-- The video_info computation of _convert_vlc_status: the first non-meta
stream of Type Video determines it (when its resolution string is truthy);
the outer none models the ValueError escaping from int() on a malformed
resolution string. -/
def convertVideoInfo (streams : List (String × StreamDict)) :
    Option (Option VideoInfo) :=
  match streams.find? (fun p => p.2.typeName == some "Video") with
  | none => some none
  | some p =>
    let resolution := p.2.videoResolution.getD ""
    if resolution != "" then
      match resolutionComponent resolution false, resolutionComponent resolution true with
      | some w, some h => some (some { width := w, height := h })
      | _, _ => none
    else some none

/-- Model of StatusReader._convert_vlc_status.  none models an exception
escaping (only the int() calls on the resolution string can raise), which
the callers try/except turns into a None read. -/
def convertVlcStatus (raw : VlcRaw) (now : Int) : Option Snapshot :=
  let state := raw.state.getD "stopped"
  let timeValue := raw.time.getD 0
  let lengthValue := raw.length.getD 0
  let positionValue := raw.position.getD 0
  let mediaType :=
    if raw.streams.any (fun p => p.2.typeName == some "Video") then "video"
    else "audio"
  let media : OutMedia :=
    match raw.meta with
    | none => { title := none, artist := none, album := none, artworkUrl := none }
    | some m =>
      { title := some ((m.title.orElse (fun _ => m.filename)).getD "Unknown")
        artist := some (m.artist.getD "")
        album := some (m.album.getD "")
        artworkUrl := if (m.artworkUrl.getD "") != "" then m.artworkUrl else none }
  (convertVideoInfo raw.streams).map (fun vi =>
    { active := state != "stopped"
      status := state
      timestamp := now
      playback := { position := positionValue, time := timeValue, duration := lengthValue }
      mediaType := mediaType
      media := media
      videoInfo := vi })

/-- Reader state: last_status starts as the empty dict (modelled none) and
last_status_hash as the empty string. -/
structure ReaderState where
  lastStatus : Option Snapshot
  lastStatusHash : String
deriving DecidableEq, Repr

/-- Conversion outcome handling of read_status: a conversion exception is
caught and turned into a None read (with the hash already stored); a
converted status is stored and returned. -/
def readStatusConverted (st1 : ReaderState) :
    Option Snapshot → ReaderState × Option (Option Snapshot)
  | none => (st1, none)
  | some status => ({ st1 with lastStatus := some status }, some (some status))

/-- Parse-and-convert phase of read_status, entered after the content hash
has been stored in st1: a JSONDecodeError (parse none) is caught and
returns None. -/
def readStatusProcess (now : Int) (st1 : ReaderState) :
    Option VlcRaw → ReaderState × Option (Option Snapshot)
  | none => (st1, none)
  | some raw => readStatusConverted st1 (convertVlcStatus raw now)

/-- Model of StatusReader.read_status on a successfully downloaded payload
(the HTTP transport errors all return None before this logic runs and are
not modelled).  hash abstracts the md5 hexdigest of the payload text and
parse abstracts json.loads (none where it raises JSONDecodeError).  The
outer Option of the result is the Python return: none for None, some of
the last (possibly empty) status dict otherwise.  The content hash is
stored before parsing is attempted, exactly as in the source. -/
def readStatus (hash : String → String) (parse : String → Option VlcRaw)
    (now : Int) (st : ReaderState) (content : String) (forceUpdate : Bool) :
    ReaderState × Option (Option Snapshot) :=
  let contentHash := hash content
  if contentHash == st.lastStatusHash && !forceUpdate then
    (st, some st.lastStatus)
  else
    readStatusProcess now { st with lastStatusHash := contentHash } (parse content)

/-! ### src/audio.py : CoverArt

The cover-art resolver.  The md5 used for cache keys is abstracted as the
hash parameter; the whole MusicBrainz lookup performed on a cache miss
(_fetch_from_musicbrainz and everything below it) is abstracted as the
resolver parameter, a pure function of the media fields.  Wall-clock time
is the now parameter. -/

structure CMedia where
  artist : Option String
  album : Option String
  title : Option String
deriving DecidableEq, Repr

/-- The media_info argument of CoverArt.fetch: the full status dict (with a
media entry), a bare media section, or an invalid (non-dict or falsy)
value. -/
inductive CoverInput where
  | wrapped (m : CMedia)
  | bare (m : CMedia)
  | invalid
deriving DecidableEq, Repr

/-- Model of CoverArt._extract_media_data. -/
def extractMediaData : CoverInput → Option CMedia
  | .wrapped m => some m
  | .bare m => some m
  | .invalid => none

/-- Model of CoverArt._create_cache_key: join the present (truthy) fields
of artist, album, title into field:value parts and hash them; none when no
field is present. -/
def createCacheKey (hash : String → String) (media : CMedia) : Option String :=
  let parts :=
    (if truthyStr media.artist then ["artist:" ++ media.artist.getD ""] else []) ++
    (if truthyStr media.album then ["album:" ++ media.album.getD ""] else []) ++
    (if truthyStr media.title then ["title:" ++ media.title.getD ""] else [])
  if parts.isEmpty then none
  else some (hash (String.intercalate "|" parts))

def cacheTtl : Int := 3600

structure CacheEntry where
  url : Option String
  timestamp : Int
deriving DecidableEq, Repr

abbrev CoverCache := List (String × CacheEntry)

/-- Model of CoverArt.fetch: return the cached url (even a cached none)
when the entry is younger than the TTL; otherwise resolve anew and cache
the outcome, negative outcomes included, with the current timestamp. -/
def coverArtFetch (hash : String → String) (resolver : CMedia → Option String)
    (now : Int) (cache : CoverCache) (input : CoverInput) :
    CoverCache × Option String :=
  match extractMediaData input with
  | none => (cache, none)
  | some media =>
    let cacheKey := createCacheKey hash media
    let cached :=
      match cacheKey with
      | some k =>
        match pyGet cache k with
        | some e => if now - e.timestamp < cacheTtl then some e.url else none
        | none => none
      | none => none
    match cached with
    | some url => (cache, url)
    | none =>
      let coverUrl := resolver media
      match cacheKey with
      | some k => (pySet cache k { url := coverUrl, timestamp := now }, coverUrl)
      | none => (cache, coverUrl)

/-! ### src/audio.py : CoverArt._fuzzy_match and _calculate_release_score

The MusicBrainz JSON shapes used by the scoring function.  A release
artist-credit entry counts only when it is a dict carrying an artist key;
alias entries count only when they are dicts; the nonDict constructors
model other JSON values, which the source skips.  The scoring function is
the sum of its sequential blocks, written one definition per block; the
floor at zero is applied at the end, exactly as in the source.  Passing
None as the recording (as _process_release_response does) makes
recording.get raise an AttributeError in the source, modelled as none. -/

inductive AliasEntry where
  | obj (name : Option String)
  | nonDict
deriving DecidableEq, Repr

structure ArtistObj where
  aliases : List AliasEntry
deriving DecidableEq, Repr

inductive ArtistCredit where
  | obj (name : Option String) (artist : Option ArtistObj)
  | nonDict
deriving DecidableEq, Repr

structure ReleaseGroup where
  secondaryTypes : List String
  secondaryTypeIds : List String
deriving DecidableEq, Repr

structure Release where
  score : Option Int
  title : Option String
  artistCredit : List ArtistCredit
  date : Option String
  status : Option String
  releaseGroup : Option ReleaseGroup
deriving DecidableEq, Repr

structure Recording where
  score : Option Int
  title : Option String
deriving DecidableEq, Repr

structure ScoreMedia where
  artist : Option String
  album : Option String
  title : Option String
  date : Option String
  year : Option String
deriving DecidableEq, Repr

/-- Model of Python str.lower (ASCII approximation, written over the
character list so that it evaluates by kernel reduction). -/
def pyLower (s : String) : String := String.mk (s.data.map Char.toLower)

/-- Model of the Python substring test (the in operator on str). -/
def isSubstringL (needle : List Char) : List Char → Bool
  | [] => startsWithL needle []
  | c :: s => startsWithL needle (c :: s) || isSubstringL needle s

/-- Strip characters that are neither word characters nor whitespace, after
lowercasing, as _fuzzy_match does before comparison. -/
def fuzzyNormalize (s : String) : List Char :=
  (pyLower s).data.filter (fun c => isWordCh c || isPySpace c)

/-- Model of CoverArt._fuzzy_match. -/
def fuzzyMatch (str1 str2 : String) : Bool :=
  let s1 := fuzzyNormalize str1
  let s2 := fuzzyNormalize str2
  if s1 == s2 then true
  else if s1.length > 5 && s2.length > 5 then
    isSubstringL s1 s2 || isSubstringL s2 s1
  else false

/-- The lowercased artist-credit names (credit names and alias names) the
artist-matching block of _calculate_release_score collects. -/
def collectArtistNames (rel : Release) : List String :=
  (rel.artistCredit.map (fun ac =>
    match ac with
    | .obj name (some a) =>
      pyLower (name.getD "") :: a.aliases.filterMap (fun al =>
        match al with
        | .obj n => some (pyLower (n.getD ""))
        | .nonDict => none)
    | _ => [])).flatten

/-- Artist matching block: up to 100 points. -/
def artistPoints (media : ScoreMedia) (rel : Release) : Int :=
  if truthyStr media.artist then
    let names := collectArtistNames rel
    let mediaArtist := pyLower (media.artist.getD "")
    if names.any (fun n => fuzzyMatch mediaArtist n) then 100
    else if names.any (fun n =>
        isSubstringL mediaArtist.data n.data || isSubstringL n.data mediaArtist.data) then 70
    else 0
  else 0

/-- Album matching block: up to 100 points. -/
def albumPoints (media : ScoreMedia) (rel : Release) : Int :=
  if truthyStr media.album && truthyStr rel.title then
    let mediaAlbum := pyLower (media.album.getD "")
    let releaseTitle := pyLower (rel.title.getD "")
    if fuzzyMatch mediaAlbum releaseTitle then 100
    else if isSubstringL mediaAlbum.data releaseTitle.data ||
        isSubstringL releaseTitle.data mediaAlbum.data then 70
    else 0
  else 0

/-- Recording-title matching block: up to 80 points. -/
def titlePoints (media : ScoreMedia) (recording : Option Recording) : Int :=
  match recording with
  | some rec =>
    if truthyStr media.title && truthyStr rec.title then
      let mediaTitle := pyLower (media.title.getD "")
      let recordingTitle := pyLower (rec.title.getD "")
      if fuzzyMatch mediaTitle recordingTitle then 80
      else if isSubstringL mediaTitle.data recordingTitle.data ||
          isSubstringL recordingTitle.data mediaTitle.data then 50
      else 0
    else 0
  | none => 0

/-- Release-year proximity block: up to 40 points. -/
def yearPoints (media : ScoreMedia) (rel : Release) : Int :=
  if truthyStr media.date || truthyStr media.year then
    let mediaYear :=
      if truthyStr media.date then media.date.getD "" else media.year.getD ""
    if mediaYear.length ≥ 4 then
      let y4 := mediaYear.take 4
      let releaseDate := rel.date.getD ""
      if releaseDate != "" && startsWithL y4.data releaseDate.data then 40 else 0
    else 0
  else 0

/-- Official-status block: 30 points. -/
def statusPoints (rel : Release) : Int :=
  if rel.status == some "Official" then 30 else 0

/-- Secondary-release-type penalties: -20 when only type ids are known, and
-15 / -25 / -20 for Compilation / Live / Remix secondary type names. -/
def penaltyPoints (rel : Release) : Int :=
  let rgTypes := (rel.releaseGroup.map ReleaseGroup.secondaryTypes).getD []
  let rgIds := (rel.releaseGroup.map ReleaseGroup.secondaryTypeIds).getD []
  let idPenalty : Int := if rgTypes.isEmpty && !rgIds.isEmpty then -20 else 0
  idPenalty
    - (if rgTypes.contains "Compilation" then 15 else 0)
    - (if rgTypes.contains "Live" then 25 else 0)
    - (if rgTypes.contains "Remix" then 20 else 0)

/-- Model of CoverArt._calculate_release_score: the capped base relevance
score plus the matching blocks, floored at zero.  none models the
AttributeError raised when the recording argument is None. -/
def calculateReleaseScore (recording : Option Recording) (release : Release)
    (media : ScoreMedia) : Option Int :=
  match recording with
  | none => none
  | some rec =>
    let baseScore := min (rec.score.getD (release.score.getD 0)) 100
    some (max 0 (baseScore + artistPoints media release + albumPoints media release +
      titlePoints media (some rec) + yearPoints media release + statusPoints release +
      penaltyPoints release))

/-! ### Concrete inputs used by the claim theorems and witnesses -/

/-- The end-to-end snapshot of the spec: Money by Pink Floyd, playing at
position 30 of 300. -/
def moneySnapshot : FileStatus :=
  { active := true
    status := some "playing"
    media := { title := some "Money", artist := some "Pink Floyd",
               album := some "The Dark Side of the Moon" }
    playback := { position := some 30, duration := some 300, remaining := none } }

def c3Last : FileStatus :=
  { active := true
    status := some "playing"
    media := { title := some "clip", artist := none, album := none }
    playback := { position := some 100, duration := some 120, remaining := none } }

def c3Synth : FileStatus :=
  { active := true
    status := some "playing"
    media := { title := some "clip", artist := none, album := none }
    playback := { position := some 120, duration := some 120, remaining := some 0 } }

/-! ### Claim theorems -/

/-- Claim C1: classification strips container extensions and trailing
quality and release tags, then tests patterns in fixed priority order (TV,
then movie, then anime, then generic): the Office episode classifies as
tv_show with show_name The Office, season 3, episode 10; the Inception
title classifies as movie with movie_name Inception and year 2010; the
HorribleSubs title classifies as anime with anime_name Attack on Titan and
episode 3; random_clip.mp4 classifies as video. -/
theorem classifier_precedence_examples :
    detectContentType "The.Office.S03E10.720p.HDTV.x264-DIMENSION.mkv" =
      ("tv_show",
        [("original_title", .s "The.Office.S03E10.720p.HDTV.x264-DIMENSION.mkv"),
         ("clean_title", .s "The.Office.S03E10.720p.HDTV.x264"),
         ("show_name", .s "The Office"), ("season", .i 3), ("episode", .i 10)]) ∧
    detectContentType "Inception.2010.1080p.BluRay.x264-SPARKS.mkv" =
      ("movie",
        [("original_title", .s "Inception.2010.1080p.BluRay.x264-SPARKS.mkv"),
         ("clean_title", .s "Inception.2010.1080p.BluRay.x264"),
         ("movie_name", .s "Inception"), ("year", .s "2010")]) ∧
    detectContentType "[HorribleSubs] Attack on Titan - 03 [1080p].mkv" =
      ("anime",
        [("original_title", .s "[HorribleSubs] Attack on Titan - 03 [1080p].mkv"),
         ("clean_title", .s "[HorribleSubs] Attack on Titan - 03 [1080p]"),
         ("episode", .i 3), ("anime_name", .s "Attack on Titan")]) ∧
    (detectContentType "random_clip.mp4").1 = "video" := by
  refine ⟨?_, ?_, ?_, ?_⟩ <;> rfl

/-- Claim C2 (code bug): for the Money snapshot at now = 1000 the payload
has activity_type listening, details Money, start 970 and end 1270 as the
claim states, but the state string is by Pink Floyd followed by the
three-character mojibake sequence U+00E2 U+20AC U+00A2 and the album, not
the bullet U+2022 the claim (and the analogous separator in
media_states.py) uses: the source literal at discord_handler.py line 173
is a cp1252 double-encoding of the bullet. -/
theorem money_snapshot_presence_eval :
    buildPresencePayload moneySnapshot 1000 =
      some { details := "Money"
             state := "by Pink Floyd â€¢ The Dark Side of the Moon"
             largeImage := "logo"
             largeText := "VLC Media Player"
             smallImage := none
             smallText := "Playing"
             start := some 970
             stop := some 1270
             activityType := .listening } ∧
    (buildPresencePayload moneySnapshot 1000).map Payload.state ≠
      some "by Pink Floyd • The Dark Side of the Moon" := by
  exact ⟨rfl, by decide⟩

/-- Claim C3: whenever the extrapolation branch synthesizes a snapshot (no
fresh status, last snapshot active and playing, position known), the
synthesized position never exceeds the duration and the stored remaining
equals duration minus position and is nonnegative. -/
theorem extrapolated_position_clamped (last : FileStatus) (elapsed : Int)
    (st : FileStatus) (h : synthesizeStatus last elapsed = some st) :
    st.playback.position.getD 0 ≤ st.playback.duration.getD 0 ∧
    0 ≤ st.playback.remaining.getD 0 ∧
    st.playback.remaining.getD 0 =
      st.playback.duration.getD 0 - st.playback.position.getD 0 := by
  unfold synthesizeStatus at h
  split at h
  · split at h
    · cases hp : last.playback.position with
      | none => rw [hp] at h; exact absurd h (by simp)
      | some p =>
        rw [hp] at h
        simp only [Option.some.injEq] at h
        subst h
        simp only [Option.getD_some]
        constructor
        · split <;> omega
        constructor
        · exact le_max_left 0 _
        · rw [max_eq_right (by split <;> omega)]
    · exact absurd h (by simp)
  · exact absurd h (by simp)

/-- Witness for claim C3 at a concrete input where the raw extrapolated
position 150 is clamped to the duration 120. -/
theorem extrapolated_position_clamped_witness :
    c3Synth.playback.position.getD 0 ≤ c3Synth.playback.duration.getD 0 ∧
    0 ≤ c3Synth.playback.remaining.getD 0 ∧
    c3Synth.playback.remaining.getD 0 =
      c3Synth.playback.duration.getD 0 - c3Synth.playback.position.getD 0 :=
  extrapolated_position_clamped c3Last 50 c3Synth (by rfl)

/-- Claim C4: format_text with the 128-character limit never returns more
than 128 characters, returns inputs of length at most 128 unchanged, and
ends every truncated result with the three-character ellipsis. -/
theorem format_text_length_bound (t : List Char) :
    (formatText 128 t).length ≤ 128 ∧
    (t.length ≤ 128 → formatText 128 t = t) ∧
    (t.length > 128 → List.IsSuffix ['.', '.', '.'] (formatText 128 t)) := by
  unfold formatText
  by_cases h : t.length > 128
  · rw [if_pos h]
    refine ⟨?_, fun hle => absurd h (by omega), fun _ => ⟨t.take 125, rfl⟩⟩
    rw [List.length_append, List.length_take]
    simp
  · rw [if_neg h]
    exact ⟨by omega, fun _ => rfl, fun hgt => absurd hgt h⟩

/-- Witness for claim C4 at a 130-character input. -/
theorem format_text_length_bound_witness :
    (formatText 128 (List.replicate 130 'a')).length ≤ 128 ∧
    List.IsSuffix ['.', '.', '.'] (formatText 128 (List.replicate 130 'a')) :=
  ⟨(format_text_length_bound (List.replicate 130 'a')).1,
   (format_text_length_bound (List.replicate 130 'a')).2.2 (by decide)⟩

/-- Claim C5: after any read of a payload, reading the byte-identical
payload again without a forced refresh takes the unchanged branch: the
reader state is untouched and the stored last status is returned without
reparsing; in particular, when the first read derived a status, the second
read returns exactly that status.  Stated for every hash function (the md5
digest of equal payloads is equal because hashing is a function of the
payload bytes) and every parse function. -/
theorem repeated_payload_reuses_status (hash : String → String)
    (parse : String → Option VlcRaw) (now1 now2 : Int) (st : ReaderState)
    (p : String) (s : Snapshot)
    (h : (readStatus hash parse now1 st p false).2 = some (some s)) :
    readStatus hash parse now2 (readStatus hash parse now1 st p false).1 p false =
      ((readStatus hash parse now1 st p false).1, some (some s)) := by
  have k1 : (readStatus hash parse now1 st p false).1.lastStatusHash = hash p := by
    unfold readStatus
    simp only [Bool.not_false, Bool.and_true]
    split
    · next hc => exact (eq_of_beq hc).symm
    · cases parse p with
      | none => rfl
      | some raw =>
        simp only [readStatusProcess]
        cases convertVlcStatus raw now1 with
        | none => rfl
        | some status => rfl
  have k2 : (readStatus hash parse now1 st p false).1.lastStatus = some s := by
    unfold readStatus at h ⊢
    simp only [Bool.not_false, Bool.and_true] at h ⊢
    revert h
    split
    · intro h
      exact Option.some.inj h
    · cases parse p with
      | none => intro h; exact Option.noConfusion h
      | some raw =>
        simp only [readStatusProcess]
        cases convertVlcStatus raw now1 with
        | none => intro h; exact Option.noConfusion h
        | some status =>
          intro h
          exact Option.some.inj h
  generalize hR : (readStatus hash parse now1 st p false).1 = R at k1 k2 ⊢
  unfold readStatus
  simp only [Bool.not_false, Bool.and_true, k1, beq_self_eq_true, if_true, k2]

def c5Raw : VlcRaw :=
  { state := some "playing", time := some 30, length := some 300,
    position := some 0, meta := none, streams := [] }

def c5Snap : Snapshot :=
  { active := true
    status := "playing"
    timestamp := 100
    playback := { position := 0, time := 30, duration := 300 }
    mediaType := "audio"
    media := { title := none, artist := none, album := none, artworkUrl := none }
    videoInfo := none }

/-- Witness for claim C5 at a concrete payload, hash and parse function. -/
theorem repeated_payload_reuses_status_witness :
    readStatus (fun s => s) (fun _ => some c5Raw) 101
        (readStatus (fun s => s) (fun _ => some c5Raw) 100
          { lastStatus := none, lastStatusHash := "" } "payload" false).1
        "payload" false =
      ((readStatus (fun s => s) (fun _ => some c5Raw) 100
          { lastStatus := none, lastStatusHash := "" } "payload" false).1,
        some (some c5Snap)) :=
  repeated_payload_reuses_status (fun s => s) (fun _ => some c5Raw) 100 101
    { lastStatus := none, lastStatusHash := "" } "payload" c5Snap (by rfl)

def c6Media : CMedia :=
  { artist := some "Pink Floyd", album := none, title := none }

def c6Entry : CacheEntry := { url := some "u1", timestamp := 1000 }

def c6Cache : CoverCache := [("artist:Pink Floyd", c6Entry)]

/-- Claim C6: a cover-art fetch whose cache entry (keyed by the hash of the
present media fields) is at least the 3600-second TTL old ignores the
cached value, even a cached negative one, re-queries the resolver, and
overwrites the entry with the new result and a fresh timestamp; a fetch
whose entry is younger than the TTL returns the cached value for every
resolver, hence without any network access. -/
theorem cover_art_cache_ttl (hash : String → String)
    (resolver : CMedia → Option String) (now : Int) (cache : CoverCache)
    (m : CMedia) (k : String) (e : CacheEntry)
    (hkey : createCacheKey hash m = some k)
    (hent : pyGet cache k = some e) :
    (cacheTtl ≤ now - e.timestamp →
      coverArtFetch hash resolver now cache (.bare m) =
        (pySet cache k { url := resolver m, timestamp := now }, resolver m)) ∧
    (now - e.timestamp < cacheTtl →
      coverArtFetch hash resolver now cache (.bare m) = (cache, e.url)) := by
  constructor
  · intro hstale
    unfold coverArtFetch
    simp only [extractMediaData, hkey, hent]
    rw [if_neg (by omega)]
  · intro hfresh
    unfold coverArtFetch
    simp only [extractMediaData, hkey, hent]
    rw [if_pos hfresh]

/-- Witness for claim C6: both branches at concrete times 4600 (stale) and
4599 (fresh) against an entry written at time 1000. -/
theorem cover_art_cache_ttl_witness :
    (coverArtFetch (fun s => s) (fun _ => some "u2") 4600 c6Cache (.bare c6Media) =
      (pySet c6Cache "artist:Pink Floyd" { url := some "u2", timestamp := 4600 },
        some "u2")) ∧
    (coverArtFetch (fun s => s) (fun _ => some "u2") 4599 c6Cache (.bare c6Media) =
      (c6Cache, c6Entry.url)) :=
  ⟨(cover_art_cache_ttl (fun s => s) (fun _ => some "u2") 4600 c6Cache c6Media
      "artist:Pink Floyd" c6Entry (by rfl) (by rfl)).1 (by decide),
   (cover_art_cache_ttl (fun s => s) (fun _ => some "u2") 4599 c6Cache c6Media
      "artist:Pink Floyd" c6Entry (by rfl) (by rfl)).2 (by decide)⟩

/-! Helper bounds on the scoring blocks, shared by the scoring theorem. -/

theorem artistPoints_of_no_artist (m : ScoreMedia) (r : Release)
    (h : m.artist = none) : artistPoints m r = 0 := by
  unfold artistPoints
  rw [h]
  rfl

theorem artistPoints_of_fuzzy_match (m : ScoreMedia) (r : Release) (a : String)
    (ha : m.artist = some a) (hne : a ≠ "")
    (hm : (collectArtistNames r).any (fun n => fuzzyMatch (pyLower a) n) = true) :
    artistPoints m r = 100 := by
  unfold artistPoints
  rw [ha]
  have ht : truthyStr (some a) = true := by
    simp [truthyStr, hne]
  rw [if_pos ht]
  simp only [Option.getD_some]
  rw [if_pos hm]

theorem albumPoints_nonneg (m : ScoreMedia) (r : Release) :
    0 ≤ albumPoints m r := by
  simp only [albumPoints]
  split_ifs <;> norm_num

theorem titlePoints_nonneg (m : ScoreMedia) (rec : Option Recording) :
    0 ≤ titlePoints m rec := by
  cases rec with
  | none => exact le_refl 0
  | some r =>
    simp only [titlePoints]
    split_ifs <;> norm_num

theorem yearPoints_nonneg (m : ScoreMedia) (r : Release) :
    0 ≤ yearPoints m r := by
  simp only [yearPoints]
  split_ifs <;> norm_num

theorem statusPoints_nonneg (r : Release) : 0 ≤ statusPoints r := by
  unfold statusPoints
  split <;> norm_num

theorem penaltyPoints_lower (r : Release) : -80 ≤ penaltyPoints r := by
  simp only [penaltyPoints]
  split_ifs <;> norm_num

/-- Claim C7: for every release candidate scored through a recording and
every media mapping without an artist field, adding a nonempty artist field
that fuzzy-matches one of the collected artist-credit names strictly
increases the computed release score, all other inputs unchanged, provided
the upstream relevance score is nonnegative (it is a 0-100 relevance in the
MusicBrainz API): the +100 artist bonus dominates the floor at 0. -/
theorem artist_match_increases_score (rec : Recording) (rel : Release)
    (media : ScoreMedia) (a : String)
    (hnone : media.artist = none)
    (hbase : 0 ≤ rec.score.getD (rel.score.getD 0))
    (hne : a ≠ "")
    (hm : (collectArtistNames rel).any (fun n => fuzzyMatch (pyLower a) n) = true) :
    ∃ s1 s2 : Int,
      calculateReleaseScore (some rec) rel media = some s1 ∧
      calculateReleaseScore (some rec) rel { media with artist := some a } = some s2 ∧
      s1 < s2 := by
  refine ⟨_, _, rfl, rfl, ?_⟩
  have h0 : artistPoints media rel = 0 := artistPoints_of_no_artist media rel hnone
  have h100 : artistPoints { media with artist := some a } rel = 100 :=
    artistPoints_of_fuzzy_match _ rel a rfl hne hm
  have e1 : albumPoints { media with artist := some a } rel = albumPoints media rel := rfl
  have e2 : titlePoints { media with artist := some a } (some rec) =
      titlePoints media (some rec) := rfl
  have e3 : yearPoints { media with artist := some a } rel = yearPoints media rel := rfl
  simp only [calculateReleaseScore, h0, h100, e1, e2, e3]
  have b1 := albumPoints_nonneg media rel
  have b2 := titlePoints_nonneg media (some rec)
  have b3 := yearPoints_nonneg media rel
  have b4 := statusPoints_nonneg rel
  have b5 := penaltyPoints_lower rel
  have hb : (0 : Int) ≤ min (rec.score.getD (rel.score.getD 0)) 100 :=
    le_min hbase (by norm_num)
  omega

def c7Rec : Recording := { score := some 50, title := none }

def c7Rel : Release :=
  { score := none, title := none,
    artistCredit := [.obj (some "Pink Floyd") (some { aliases := [] })],
    date := none, status := none, releaseGroup := none }

def c7Media : ScoreMedia :=
  { artist := none, album := none, title := none, date := none, year := none }

/-- Witness for claim C7 at a concrete recording, release and artist. -/
theorem artist_match_increases_score_witness :
    ∃ s1 s2 : Int,
      calculateReleaseScore (some c7Rec) c7Rel c7Media = some s1 ∧
      calculateReleaseScore (some c7Rec) c7Rel
        { c7Media with artist := some "Pink Floyd" } = some s2 ∧
      s1 < s2 :=
  artist_match_increases_score c7Rec c7Rel c7Media "Pink Floyd"
    (by rfl) (by decide) (by decide) (by decide)

def c8Raw : VlcRaw :=
  { state := some "playing", time := some 400, length := some 300,
    position := some 400, meta := none, streams := [] }

/-- Claim C8 counterexample: a successfully parsed payload reporting
time 400 (and position 400) with length 300 converts to a snapshot whose
playback position exceeds its positive duration: _convert_vlc_status copies
the raw values without clamping, so the claimed invariant fails. -/
theorem convert_unclamped_counterexample :
    ∃ snap : Snapshot, convertVlcStatus c8Raw 1000 = some snap ∧
      0 < snap.playback.duration ∧
      snap.playback.duration < snap.playback.time ∧
      snap.playback.duration < snap.playback.position := by
  refine ⟨_, rfl, ?_, ?_, ?_⟩ <;> decide

/-- Claim C8 (amended): a snapshot produced by a successfully parsed status
read satisfies 0 ≤ playback position ≤ duration whenever the raw payload
itself reports 0 ≤ time ≤ length; the conversion copies the elapsed-seconds
and duration values verbatim. -/
theorem convert_preserves_position_bounds (raw : VlcRaw) (now : Int)
    (snap : Snapshot) (hconv : convertVlcStatus raw now = some snap)
    (h0 : 0 ≤ raw.time.getD 0) (h1 : raw.time.getD 0 ≤ raw.length.getD 0) :
    0 ≤ snap.playback.time ∧ snap.playback.time ≤ snap.playback.duration := by
  simp only [convertVlcStatus, Option.map_eq_some'] at hconv
  obtain ⟨vi, hvi, h2⟩ := hconv
  subst h2
  exact ⟨h0, h1⟩

def c8GoodRaw : VlcRaw :=
  { state := some "playing", time := some 30, length := some 300,
    position := some 0, meta := none, streams := [] }

def c8GoodSnap : Snapshot :=
  { active := true
    status := "playing"
    timestamp := 100
    playback := { position := 0, time := 30, duration := 300 }
    mediaType := "audio"
    media := { title := none, artist := none, album := none, artworkUrl := none }
    videoInfo := none }

/-- Witness for the amended claim C8 at a well-formed concrete payload. -/
theorem convert_preserves_position_bounds_witness :
    0 ≤ c8GoodSnap.playback.time ∧
    c8GoodSnap.playback.time ≤ c8GoodSnap.playback.duration :=
  convert_preserves_position_bounds c8GoodRaw 100 c8GoodSnap (by rfl)
    (by decide) (by decide)

/-- Item assignment followed by lookup of the same key returns the assigned
value, for the association-list dict model. -/
theorem pyGet_pySet_self {α : Type} (d : List (String × α)) (k : String) (v : α) :
    pyGet (pySet d k v) k = some v := by
  induction d with
  | nil => simp [pyGet, pySet]
  | cons p d ih =>
    by_cases hp : p.1 = k
    · simp [pyGet, pySet, List.find?, hp]
    · have hpb : (p.1 == k) = false := by simpa using hp
      by_cases hf : (List.find? (fun q => q.1 == k) d).isSome
      · have hset : pySet (p :: d) k v =
            p :: d.map (fun q => if q.1 == k then (k, v) else q) := by
          simp [pySet, List.find?, hpb, hf, hp]
        have hset2 : pySet d k v =
            d.map (fun q => if q.1 == k then (k, v) else q) := by
          simp [pySet, hf]
        rw [hset]
        rw [hset2] at ih
        simpa [pyGet, List.find?, hpb] using ih
      · have hset : pySet (p :: d) k v = p :: (d ++ [(k, v)]) := by
          simp [pySet, List.find?, hpb, hf, hp]
        have hset2 : pySet d k v = d ++ [(k, v)] := by
          simp [pySet, hf]
        rw [hset]
        rw [hset2] at ih
        simpa [pyGet, List.find?, hpb] using ih

/-- Claim C9 counterexample: analyze on a nonempty dict with a falsy media
entry and no title returns the dict with the media entry replaced by an
empty mapping, not the input unchanged. -/
theorem analyze_changes_input :
    analyze (fun _ => none) [("media", PyVal.null)] =
      .ok [("media", PyVal.strDict [])] ∧
    ([("media", PyVal.strDict [])] : PyDict) ≠ [("media", PyVal.null)] :=
  ⟨rfl, by decide⟩

/-- Claim C9 (amended): for every media_info whose media entry is a
string-valued mapping or falsy and whose title is absent or empty, analyze
raises no exception and returns the input except that a missing or falsy
media entry is replaced by the empty mapping; in particular the input comes
back unchanged whenever its media entry is already a truthy mapping or the
input is empty. -/
theorem analyze_without_title (fetchImage : String → Option String) (d : PyDict)
    (hmedia : ∀ v, pyGet d "media" = some v → PyVal.truthy v = true →
      ∃ m, v = PyVal.strDict m)
    (htitle : ∀ m, pyGet d "media" = some (PyVal.strDict m) →
      (pyGet m "title").getD "" = "") :
    analyze fetchImage d =
      .ok (if d.isEmpty then d
           else if truthyAt d "media" then d
           else pySet d "media" (PyVal.strDict [])) := by
  unfold analyze
  by_cases hd : d.isEmpty = true
  · rw [if_pos hd, if_pos hd]
  · rw [if_neg hd, if_neg hd]
    by_cases ht : truthyAt d "media" = true
    · obtain ⟨v, hv, hvt⟩ : ∃ v, pyGet d "media" = some v ∧ v.truthy = true := by
        unfold truthyAt at ht
        cases hg : pyGet d "media" with
        | none => rw [hg] at ht; exact absurd ht (by simp)
        | some v =>
          rw [hg] at ht
          exact ⟨v, rfl, by simpa using ht⟩
      obtain ⟨m, rfl⟩ := hmedia v hv hvt
      rw [if_pos ht]
      simp [ht, hv, htitle m hv]
    · have htf : truthyAt d "media" = false := by simpa using ht
      rw [if_neg ht]
      have hps := pyGet_pySet_self d "media" (PyVal.strDict [])
      have h0 : pyGet ([] : List (String × String)) "title" = none := rfl
      simp [htf, hps, h0]

/-- Witness for the amended claim C9 at a concrete dict whose media mapping
has an artist but no title. -/
theorem analyze_without_title_witness :
    analyze (fun _ => none) [("media", PyVal.strDict [("artist", "x")])] =
      .ok (if ([("media", PyVal.strDict [("artist", "x")])] : PyDict).isEmpty then
             [("media", PyVal.strDict [("artist", "x")])]
           else if truthyAt [("media", PyVal.strDict [("artist", "x")])] "media" then
             [("media", PyVal.strDict [("artist", "x")])]
           else pySet [("media", PyVal.strDict [("artist", "x")])] "media"
             (PyVal.strDict [])) :=
  analyze_without_title (fun _ => none) [("media", PyVal.strDict [("artist", "x")])]
    (by
      intro v hv hvt
      have hv2 : (some (PyVal.strDict [("artist", "x")]) : Option PyVal) = some v := hv
      cases hv2
      exact ⟨[("artist", "x")], rfl⟩)
    (by
      intro m hm
      have hm2 : (some (PyVal.strDict [("artist", "x")]) : Option PyVal) =
          some (PyVal.strDict m) := hm
      simp only [Option.some.injEq, PyVal.strDict.injEq] at hm2
      subst hm2
      decide)

def c10Snap : Snapshot :=
  { active := true
    status := "paused"
    timestamp := 50
    playback := { position := 0, time := 10, duration := 300 }
    mediaType := "audio"
    media := { title := none, artist := none, album := none, artworkUrl := none }
    videoInfo := none }

def c10State : ReaderState :=
  { lastStatus := some c10Snap, lastStatusHash := "OLDHASH" }

/-- Claim C10: a downloaded payload whose bytes fail to parse makes the
read return None for that cycle, but the stored content hash is updated to
the payload hash before parsing is attempted; an immediately following read
of the byte-identical payload therefore takes the unchanged branch and
returns the previously accepted status rather than None. -/
theorem invalid_payload_updates_hash (hash : String → String)
    (parse : String → Option VlcRaw) (now1 now2 : Int) (st : ReaderState)
    (p : String)
    (hparse : parse p = none)
    (hneq : (hash p == st.lastStatusHash) = false) :
    readStatus hash parse now1 st p false =
      ({ lastStatus := st.lastStatus, lastStatusHash := hash p }, none) ∧
    readStatus hash parse now2
        { lastStatus := st.lastStatus, lastStatusHash := hash p } p false =
      ({ lastStatus := st.lastStatus, lastStatusHash := hash p },
        some st.lastStatus) := by
  constructor
  · unfold readStatus
    simp only [Bool.not_false, Bool.and_true, hneq, Bool.false_eq_true, if_false, hparse]
    rfl
  · unfold readStatus
    simp only [Bool.not_false, Bool.and_true, beq_self_eq_true, if_true]

/-- Witness for claim C10 at a concrete state holding a previously accepted
snapshot and an unparseable payload. -/
theorem invalid_payload_updates_hash_witness :
    readStatus (fun s => s) (fun _ => none) 5 c10State "BAD" false =
      ({ lastStatus := c10State.lastStatus, lastStatusHash := "BAD" }, none) ∧
    readStatus (fun s => s) (fun _ => none) 6
        { lastStatus := c10State.lastStatus, lastStatusHash := "BAD" } "BAD" false =
      ({ lastStatus := c10State.lastStatus, lastStatusHash := "BAD" },
        some c10State.lastStatus) :=
  invalid_payload_updates_hash (fun s => s) (fun _ => none) 5 6 c10State "BAD"
    rfl (by decide)

end VlcRpc
